import Mathlib

/-!
Verification of the `MusicPlayer` module (`musicplayer.py`).

The module wraps an external audio player (`mpg123`) launched as a child
process.  A `MusicPlayer` object holds a process handle `_p`, a local pause
belief `_is_paused`, a running flag `_process_running` (written only by the
monitor thread), and a recorded exit code `_return_code`.

The embedding has two layers:

* Pure per-method functions on a `MusicPlayer` record, one definition per
  Python method, translated line by line.  A method returns the possibly
  raised exception together with the post-state (in the source, a raise
  happens before any mutation in the raising branch, so the post-state on a
  raise equals the pre-state).
* A small-step transition system `Step` on a `SysState` that interleaves the
  controller thread with the monitor thread.  The body of `process_monitor`
  is split into its four shared-state accesses (set `running := true`; record
  `poll()`; the conditional `wait()`; set `running := false`), and
  `quit_playing` into the write of the quit byte and the return from the
  busy-wait loop, whose guard is exactly the exit condition of the loop,
  `_process_running = false`.

The child process is modelled by a `Proc` record that carries the argv used
to spawn it, the chunks of bytes written to its stdin pipe, a flush counter,
and the child behaviour as seen by the monitor: what `poll()` returns at
the moment the monitor polls (`pollResult`, `none` when the child has not
yet exited) and the exit status `wait()` eventually returns (`waitResult`).
-/

/-- Exceptions that the module can raise.  `audioEngineUnavailable` embeds
`AudioEngineUnavailableError`, `noPlayback` embeds `NoPlaybackError`, and
`attributeError` embeds the unguarded `AttributeError` Python raises when a
method dereferences `self._p.stdin` while `self._p` is `None`. -/
inductive PyError where
  | audioEngineUnavailable (msg : String)
  | noPlayback (msg : String)
  | attributeError (msg : String)
deriving DecidableEq

/-- Model of a spawned child process (a `subprocess.Popen` handle): the argv
it was spawned with, the chunks written to its stdin pipe so far, how often
the pipe was flushed, and the exit behaviour of the child (`pollResult` is what
`poll()` reports when the monitor polls; `waitResult` is what `wait()`
returns). -/
structure Proc where
  argv : List String
  stdinChunks : List (List Nat)
  flushCount : Nat
  pollResult : Option Int
  waitResult : Int
deriving DecidableEq

/-- `p.stdin.write(b)`: append one chunk of bytes to the stdin pipe. -/
def Proc.writeStdin (p : Proc) (b : List Nat) : Proc :=
  { p with stdinChunks := p.stdinChunks ++ [b] }

/-- `p.stdin.flush()`. -/
def Proc.flushStdin (p : Proc) : Proc :=
  { p with flushCount := p.flushCount + 1 }

/-- The byte value 115, ASCII letter s (stop/start toggle command of mpg123). -/
def toggleByte : Nat := 115

/-- The byte value 113, ASCII letter q (quit command of mpg123). -/
def quitByte : Nat := 113

/-- The fields of a `MusicPlayer` instance, as assigned in `__init__`. -/
structure MusicPlayer where
  _audioengine : String
  _p : Option Proc
  _is_paused : Bool
  _process_running : Bool
  _return_code : Option Int
deriving DecidableEq

namespace MusicPlayer

/-- `MusicPlayer.__init__`. -/
def init : MusicPlayer :=
  { _audioengine := "mpg123"
    _p := none
    _is_paused := false
    _process_running := false
    _return_code := none }

/-- Outcome of the `subprocess.Popen` call, an input of the model: either the
OS spawns a child (whose exit behaviour is `pollr`/`waitr`), or the binary
cannot be located and `Popen` raises `FileNotFoundError` carrying an OS error
description. -/
inductive SpawnResult where
  | ok (pollr : Option Int) (waitr : Int)
  | fileNotFound (oserr : String)
deriving DecidableEq

/-- `MusicPlayer.play`.  On a successful spawn: `self._p` is set to the new
process (spawned with argv `[engine, "-C", "-q", sound_file]`), an empty
chunk is written to its stdin and flushed, and the monitor thread is started
(the `Bool` component; the execution of the thread is modelled by the `Step`
system).  On `FileNotFoundError` the method raises
`AudioEngineUnavailableError` with the OS error interpolated into the
message; no field has been assigned at that point and no monitor is
started. -/
def play (st : MusicPlayer) (sound_file : String) (spawn : SpawnResult) :
    Option PyError × MusicPlayer × Bool :=
  match spawn with
  | .fileNotFound e =>
      (some (.audioEngineUnavailable ("AudioEngineUnavailableError: " ++ e)), st, false)
  | .ok pollr waitr =>
      let p0 : Proc :=
        { argv := [st._audioengine, "-C", "-q", sound_file]
          stdinChunks := []
          flushCount := 0
          pollResult := pollr
          waitResult := waitr }
      let p1 := (p0.writeStdin []).flushStdin
      (none, { st with _p := some p1 }, true)

/-- Lines 71-72 of `quit_playing`: the write of the quit byte to
`self._p.stdin`, followed by the flush of that pipe.  The subsequent busy-wait loop
`while self._process_running: time.sleep(0.1)` is modelled by the
`Step.quitReturn` transition, guarded by the exit condition of the loop.  When
`self._p` is `None` the attribute access raises `AttributeError`. -/
def quit_send (st : MusicPlayer) : Option PyError × MusicPlayer :=
  match st._p with
  | none => (some (.attributeError "NoneType object has no attribute stdin"), st)
  | some pr => (none, { st with _p := some ((pr.writeStdin [quitByte]).flushStdin) })

/-- `MusicPlayer.pause`. -/
def pause (st : MusicPlayer) : Option PyError × MusicPlayer :=
  if st._process_running then
    if st._is_paused then (none, st)
    else
      match st._p with
      | none => (some (.attributeError "NoneType object has no attribute stdin"), st)
      | some pr =>
          (none, { st with _p := some ((pr.writeStdin [toggleByte]).flushStdin)
                           _is_paused := true })
  else
    (some (.noPlayback "Cannot pause playback because nothing is playing."), st)

/-- `MusicPlayer.resume`. -/
def resume (st : MusicPlayer) : Option PyError × MusicPlayer :=
  if st._process_running then
    if !st._is_paused then (none, st)
    else
      match st._p with
      | none => (some (.attributeError "NoneType object has no attribute stdin"), st)
      | some pr =>
          (none, { st with _p := some ((pr.writeStdin [toggleByte]).flushStdin)
                           _is_paused := false })
  else
    (some (.noPlayback "Cannot resume playback because nothing is playing."), st)

/-- `MusicPlayer.is_playing`. -/
def is_playing (st : MusicPlayer) : Bool :=
  st._process_running

/-- `MusicPlayer.return_code`. -/
def return_code (st : MusicPlayer) : Option Int :=
  st._return_code

/-- The whole body of `MusicPlayer.process_monitor` run atomically (its
interleaved execution is the four `mon*` transitions of `Step`): set
`_process_running := True`, record `self._p.poll()`, if that is `None`
record `self._p.wait()`, finally set `_process_running := False`. -/
def process_monitor (st : MusicPlayer) : Option PyError × MusicPlayer :=
  let st1 := { st with _process_running := true }
  match st1._p with
  | none => (some (.attributeError "NoneType object has no attribute poll"), st1)
  | some pr =>
      let st2 := { st1 with _return_code := pr.pollResult }
      let st3 :=
        if st2._return_code = none then { st2 with _return_code := some pr.waitResult }
        else st2
      (none, { st3 with _process_running := false })

end MusicPlayer

/-- Program counter of the monitor thread, locating it between the
shared-state accesses of `process_monitor`: `idle` = no thread ever started;
`created` = `Thread(...).start()` has run but the body has not begun;
`marked` = after `_process_running = True` (line 111); `polled` = after
`_return_code = self._p.poll()` (line 115); `waited` = after the conditional
`wait()` (lines 119-122); `done` = after `_process_running = False`
(line 125). -/
inductive MonPC where
  | idle
  | created
  | marked
  | polled
  | waited
  | done
deriving DecidableEq

/-- Program counter of the controller thread: `ready` = between method
calls; `quitWaiting` = inside the busy-wait loop of `quit_playing`, after
the quit byte has been written. -/
inductive CtlPC where
  | ready
  | quitWaiting
deriving DecidableEq

/-- A global state of the two-thread program: the shared `MusicPlayer`
fields plus the two program counters. -/
structure SysState where
  mp : MusicPlayer
  monPC : MonPC
  ctl : CtlPC
deriving DecidableEq

/-- The initial state: a freshly constructed `MusicPlayer`, no monitor
thread, controller idle. -/
def initSys : SysState :=
  { mp := MusicPlayer.init, monPC := .idle, ctl := .ready }

/-- One interleaved step of the controller thread or the monitor thread.
Controller steps require `ctl = ready` (the controller is single-threaded;
while it busy-waits inside `quit_playing` it calls nothing else).  A new
`play` requires the previous monitor to have finished (the at most one
active session scope of the model).  Monitor steps split the body of
`process_monitor` at its shared-state accesses.  `quitReturn` is the exit of
the busy-wait loop, enabled exactly when the loop condition
`self._process_running` is false.  Steps that raise an exception without
mutating anything are identity transitions and are omitted. -/
inductive Step : SysState → SysState → Prop where
  | playOk (s : SysState) (path : String) (pollr : Option Int) (waitr : Int)
      (hc : s.ctl = .ready) (hm : s.monPC = .idle ∨ s.monPC = .done) :
      Step s { mp := (s.mp.play path (.ok pollr waitr)).2.1, monPC := .created, ctl := .ready }
  | playFail (s : SysState) (path oserr : String)
      (hc : s.ctl = .ready) (hm : s.monPC = .idle ∨ s.monPC = .done) :
      Step s { mp := (s.mp.play path (.fileNotFound oserr)).2.1, monPC := s.monPC, ctl := .ready }
  | pauseOk (s : SysState) (st' : MusicPlayer)
      (hc : s.ctl = .ready) (h : s.mp.pause = (none, st')) :
      Step s { s with mp := st' }
  | resumeOk (s : SysState) (st' : MusicPlayer)
      (hc : s.ctl = .ready) (h : s.mp.resume = (none, st')) :
      Step s { s with mp := st' }
  | quitSend (s : SysState) (st' : MusicPlayer)
      (hc : s.ctl = .ready) (h : s.mp.quit_send = (none, st')) :
      Step s { s with mp := st', ctl := .quitWaiting }
  | quitReturn (s : SysState)
      (hc : s.ctl = .quitWaiting) (hr : s.mp._process_running = false) :
      Step s { s with ctl := .ready }
  | monMark (s : SysState) (hm : s.monPC = .created) :
      Step s { s with mp := { s.mp with _process_running := true }, monPC := .marked }
  | monPoll (s : SysState) (pr : Proc)
      (hm : s.monPC = .marked) (hp : s.mp._p = some pr) :
      Step s { s with mp := { s.mp with _return_code := pr.pollResult }, monPC := .polled }
  | monWaitStep (s : SysState) (pr : Proc)
      (hm : s.monPC = .polled) (hp : s.mp._p = some pr) :
      Step s { s with
        mp := { s.mp with _return_code :=
          match s.mp._return_code with
          | none => some pr.waitResult
          | some c => some c }
        monPC := .waited }
  | monFinish (s : SysState) (hm : s.monPC = .waited) :
      Step s { s with mp := { s.mp with _process_running := false }, monPC := .done }

/-- The states a session of the program can reach from the initial state. -/
inductive Reachable : SysState → Prop where
  | init : Reachable initSys
  | step {s s' : SysState} : Reachable s → Step s s' → Reachable s'

/-- The inductive invariant of the two-thread program: the monitor only runs
with a process handle in place; `_process_running` is true exactly while the
monitor is between line 111 and line 125; at `waited` and `done` the exit
code has been recorded; before the first session everything still has its
`__init__` value; once the controller is inside the busy-wait loop of
`quit_playing`, the quit byte is among the chunks written to the stdin of the current
process. -/
def SysInv (s : SysState) : Prop :=
  (s.monPC ≠ .idle → s.mp._p ≠ none) ∧
  ((s.monPC = .marked ∨ s.monPC = .polled ∨ s.monPC = .waited) →
      s.mp._process_running = true) ∧
  ((s.monPC = .idle ∨ s.monPC = .created ∨ s.monPC = .done) →
      s.mp._process_running = false) ∧
  (s.monPC = .waited → s.mp._return_code ≠ none) ∧
  (s.monPC = .done → s.mp._return_code ≠ none) ∧
  (s.monPC = .idle → s.mp = MusicPlayer.init) ∧
  (s.ctl = .quitWaiting →
      ∃ pr, s.mp._p = some pr ∧ [quitByte] ∈ pr.stdinChunks)

theorem sysInv_init : SysInv initSys := by
  refine ⟨?_, ?_, ?_, ?_, ?_, ?_, ?_⟩ <;> simp [initSys, MusicPlayer.init, SysInv]

/-- A successful `pause` call happened with `_process_running` true, and
either was a no-op (already paused) or wrote the toggle byte and set
`_is_paused`; it never touches `_process_running` or `_return_code`. -/
theorem pause_ok_fields {st st' : MusicPlayer} (h : st.pause = (none, st')) :
    st._process_running = true ∧
    st'._process_running = st._process_running ∧
    st'._return_code = st._return_code ∧
    st'._audioengine = st._audioengine ∧
    ((st._is_paused = true ∧ st' = st) ∨
      (st._is_paused = false ∧ ∃ pr, st._p = some pr ∧
        st'._p = some ((pr.writeStdin [toggleByte]).flushStdin) ∧
        st'._is_paused = true)) := by
  cases hb : st._process_running with
  | false => simp [MusicPlayer.pause, hb] at h
  | true =>
      cases hp : st._is_paused with
      | true =>
          have h' : st = st' := by simpa [MusicPlayer.pause, hb, hp] using h
          subst h'
          simp_all
      | false =>
          cases hq : st._p with
          | none => simp [MusicPlayer.pause, hb, hp, hq] at h
          | some pr =>
              have h' : ({ st with
                  _p := some ((pr.writeStdin [toggleByte]).flushStdin)
                  _is_paused := true } : MusicPlayer) = st' := by
                simpa [MusicPlayer.pause, hb, hp, hq] using h
              subst h'
              simp_all

/-- A successful `resume` call happened with `_process_running` true, and
either was a no-op (already playing) or wrote the toggle byte and cleared
`_is_paused`; it never touches `_process_running` or `_return_code`. -/
theorem resume_ok_fields {st st' : MusicPlayer} (h : st.resume = (none, st')) :
    st._process_running = true ∧
    st'._process_running = st._process_running ∧
    st'._return_code = st._return_code ∧
    st'._audioengine = st._audioengine ∧
    ((st._is_paused = false ∧ st' = st) ∨
      (st._is_paused = true ∧ ∃ pr, st._p = some pr ∧
        st'._p = some ((pr.writeStdin [toggleByte]).flushStdin) ∧
        st'._is_paused = false)) := by
  cases hb : st._process_running with
  | false => simp [MusicPlayer.resume, hb] at h
  | true =>
      cases hp : st._is_paused with
      | false =>
          have h' : st = st' := by simpa [MusicPlayer.resume, hb, hp] using h
          subst h'
          simp_all
      | true =>
          cases hq : st._p with
          | none => simp [MusicPlayer.resume, hb, hp, hq] at h
          | some pr =>
              have h' : ({ st with
                  _p := some ((pr.writeStdin [toggleByte]).flushStdin)
                  _is_paused := false } : MusicPlayer) = st' := by
                simpa [MusicPlayer.resume, hb, hp, hq] using h
              subst h'
              simp_all

/-- A successful `quit_send` happened with a process handle in place and
appended exactly the quit-byte chunk to its stdin; every `MusicPlayer`
field other than `_p` is untouched. -/
theorem quit_send_ok_fields {st st' : MusicPlayer} (h : st.quit_send = (none, st')) :
    st'._process_running = st._process_running ∧
    st'._return_code = st._return_code ∧
    st'._is_paused = st._is_paused ∧
    st'._audioengine = st._audioengine ∧
    ∃ pr, st._p = some pr ∧
      st'._p = some ((pr.writeStdin [quitByte]).flushStdin) := by
  cases hq : st._p with
  | none => simp [MusicPlayer.quit_send, hq] at h
  | some pr =>
      have h' : ({ st with
          _p := some ((pr.writeStdin [quitByte]).flushStdin) } : MusicPlayer) = st' := by
        simpa [MusicPlayer.quit_send, hq] using h
      subst h'
      simp_all

/-- The invariant is preserved by every interleaved step. -/
theorem sysInv_step {s s' : SysState} (hI : SysInv s) (hs : Step s s') : SysInv s' := by
  obtain ⟨h1, h2, h3, h4, h5, h6, h7⟩ := hI
  cases hs with
  | playOk path pollr waitr hc hm =>
      have hrun : s.mp._process_running = false := by
        rcases hm with h | h <;> exact h3 (by simp [h])
      refine ⟨?_, ?_, ?_, ?_, ?_, ?_, ?_⟩ <;>
        simp [MusicPlayer.play, Proc.writeStdin, Proc.flushStdin, hrun]
  | playFail path oserr hc hm =>
      exact ⟨by simpa [MusicPlayer.play] using h1,
        by simpa [MusicPlayer.play] using h2,
        by simpa [MusicPlayer.play] using h3,
        by simpa [MusicPlayer.play] using h4,
        by simpa [MusicPlayer.play] using h5,
        by simpa [MusicPlayer.play] using h6, by simp⟩
  | pauseOk st' hc h =>
      obtain ⟨hrun, hr', hrc', hae', hcase⟩ := pause_ok_fields h
      have hmon : ¬(s.monPC = .idle ∨ s.monPC = .created ∨ s.monPC = .done) := by
        intro hx
        rw [h3 hx] at hrun
        exact Bool.false_ne_true hrun
      have hp' : st'._p ≠ none := by
        rcases hcase with ⟨_, rfl⟩ | ⟨_, pr, _, hpp, _⟩
        · exact h1 (fun hx => hmon (Or.inl hx))
        · simp [hpp]
      refine ⟨fun _ => by simpa using hp',
        fun hx => by rw [show ({ s with mp := st'} : SysState).mp = st' from rfl, hr']; exact h2 (by simpa using hx),
        fun hx => absurd (by simpa using hx) hmon,
        fun hx => by rw [show ({ s with mp := st'} : SysState).mp = st' from rfl, hrc']; exact h4 (by simpa using hx),
        fun hx => by rw [show ({ s with mp := st'} : SysState).mp = st' from rfl, hrc']; exact h5 (by simpa using hx),
        fun hx => absurd (Or.inl (by simpa using hx)) hmon,
        fun hx => by rw [show ({ s with mp := st'} : SysState).ctl = s.ctl from rfl, hc] at hx; simp at hx⟩
  | resumeOk st' hc h =>
      obtain ⟨hrun, hr', hrc', hae', hcase⟩ := resume_ok_fields h
      have hmon : ¬(s.monPC = .idle ∨ s.monPC = .created ∨ s.monPC = .done) := by
        intro hx
        rw [h3 hx] at hrun
        exact Bool.false_ne_true hrun
      have hp' : st'._p ≠ none := by
        rcases hcase with ⟨_, rfl⟩ | ⟨_, pr, _, hpp, _⟩
        · exact h1 (fun hx => hmon (Or.inl hx))
        · simp [hpp]
      refine ⟨fun _ => by simpa using hp',
        fun hx => by rw [show ({ s with mp := st'} : SysState).mp = st' from rfl, hr']; exact h2 (by simpa using hx),
        fun hx => absurd (by simpa using hx) hmon,
        fun hx => by rw [show ({ s with mp := st'} : SysState).mp = st' from rfl, hrc']; exact h4 (by simpa using hx),
        fun hx => by rw [show ({ s with mp := st'} : SysState).mp = st' from rfl, hrc']; exact h5 (by simpa using hx),
        fun hx => absurd (Or.inl (by simpa using hx)) hmon,
        fun hx => by rw [show ({ s with mp := st'} : SysState).ctl = s.ctl from rfl, hc] at hx; simp at hx⟩
  | quitSend st' hc h =>
      obtain ⟨hr', hrc', hip', hae', pr, hp, hpp⟩ := quit_send_ok_fields h
      have hmon : s.monPC ≠ .idle := by
        intro hx
        rw [h6 hx] at hp
        simp [MusicPlayer.init] at hp
      refine ⟨fun _ => by simp [hpp],
        fun hx => by rw [show ({ s with mp := st', ctl := .quitWaiting} : SysState).mp = st' from rfl, hr']; exact h2 (by simpa using hx),
        fun hx => by rw [show ({ s with mp := st', ctl := .quitWaiting} : SysState).mp = st' from rfl, hr']; exact h3 (by simpa using hx),
        fun hx => by rw [show ({ s with mp := st', ctl := .quitWaiting} : SysState).mp = st' from rfl, hrc']; exact h4 (by simpa using hx),
        fun hx => by rw [show ({ s with mp := st', ctl := .quitWaiting} : SysState).mp = st' from rfl, hrc']; exact h5 (by simpa using hx),
        fun hx => absurd (by simpa using hx) hmon,
        fun _ => ⟨(pr.writeStdin [quitByte]).flushStdin, by simpa using hpp,
          by simp [Proc.writeStdin, Proc.flushStdin]⟩⟩
  | quitReturn hc hr =>
      exact ⟨h1, h2, h3, h4, h5, h6, fun hx => by simp at hx⟩
  | monMark hm =>
      refine ⟨fun _ => by simpa using h1 (by rw [hm]; simp),
        fun _ => by simp,
        fun hx => by simp at hx,
        fun hx => by simp at hx,
        fun hx => by simp at hx,
        fun hx => by simp at hx,
        ?_⟩
      intro hx
      obtain ⟨pr, hp, hmem⟩ := h7 (by simpa using hx)
      exact ⟨pr, by simpa using hp, hmem⟩
  | monPoll pr hm hp =>
      refine ⟨fun _ => by simp [hp],
        fun _ => by simpa using h2 (by rw [hm]; simp),
        fun hx => by simp at hx,
        fun hx => by simp at hx,
        fun hx => by simp at hx,
        fun hx => by simp at hx,
        ?_⟩
      intro hx
      obtain ⟨pr', hp', hmem⟩ := h7 (by simpa using hx)
      exact ⟨pr', by simpa using hp', hmem⟩
  | monWaitStep pr hm hp =>
      refine ⟨fun _ => by simp [hp],
        fun _ => by simpa using h2 (by rw [hm]; simp),
        fun hx => by simp at hx,
        fun _ => ?_,
        fun hx => by simp at hx,
        fun hx => by simp at hx,
        ?_⟩
      · show (match s.mp._return_code with
          | none => some pr.waitResult
          | some c => some c) ≠ none
        cases s.mp._return_code <;> simp
      · intro hx
        obtain ⟨pr', hp', hmem⟩ := h7 (by simpa using hx)
        exact ⟨pr', by simpa using hp', hmem⟩
  | monFinish hm =>
      refine ⟨fun _ => by simpa using h1 (by rw [hm]; simp),
        fun hx => by simp at hx,
        fun _ => by simp,
        fun hx => by simp at hx,
        fun _ => by simpa using h4 hm,
        fun hx => by simp at hx,
        ?_⟩
      intro hx
      obtain ⟨pr', hp', hmem⟩ := h7 (by simpa using hx)
      exact ⟨pr', by simpa using hp', hmem⟩

/-- Every reachable state satisfies the invariant. -/
theorem reachable_sysInv {s : SysState} (h : Reachable s) : SysInv s := by
  induction h with
  | init => exact sysInv_init
  | step _ hs ih => exact sysInv_step ih hs

/-- The child of concrete trace A: it has already exited with status 0 when
the monitor polls (the rare race at startup from the spec). -/
def prA : Proc :=
  { argv := ["mpg123", "-C", "-q", "song.mp3"]
    stdinChunks := [[]]
    flushCount := 1
    pollResult := some 0
    waitResult := 0 }

/-- Trace A after `play "song.mp3"`: process handle set, empty chunk
written and flushed, monitor thread created. -/
def tA1 : SysState :=
  { mp := { _audioengine := "mpg123", _p := some prA, _is_paused := false
            _process_running := false, _return_code := none }
    monPC := .created, ctl := .ready }

/-- Trace A after the monitor set `_process_running = True`. -/
def tA2 : SysState :=
  { tA1 with mp := { tA1.mp with _process_running := true }, monPC := .marked }

/-- Trace A after the monitor recorded `poll()` (the child had exited, so
the exit code 0 is recorded while `_process_running` is still true). -/
def tA3 : SysState :=
  { tA2 with mp := { tA2.mp with _return_code := prA.pollResult }, monPC := .polled }

/-- Trace A after the conditional `wait()` (a no-op here: the code was
already recorded). -/
def tA4 : SysState :=
  { tA3 with mp := { tA3.mp with _return_code := some 0 }, monPC := .waited }

/-- Trace A after the monitor set `_process_running = False`. -/
def tA5 : SysState :=
  { tA4 with mp := { tA4.mp with _process_running := false }, monPC := .done }

theorem reach_tA1 : Reachable tA1 :=
  Reachable.step Reachable.init (Step.playOk initSys "song.mp3" (some 0) 0 rfl (Or.inl rfl))

theorem reach_tA2 : Reachable tA2 :=
  Reachable.step reach_tA1 (Step.monMark tA1 rfl)

theorem reach_tA3 : Reachable tA3 :=
  Reachable.step reach_tA2 (Step.monPoll tA2 prA rfl rfl)

theorem reach_tA4 : Reachable tA4 :=
  Reachable.step reach_tA3 (Step.monWaitStep tA3 prA rfl rfl)

theorem reach_tA5 : Reachable tA5 :=
  Reachable.step reach_tA4 (Step.monFinish tA4 rfl)

/-- The child of concrete trace B: still alive when polled, exit status 0.
In trace B the controller calls `quit_playing` immediately after `play`,
before the monitor thread has executed a single statement. -/
def prB : Proc :=
  { argv := ["mpg123", "-C", "-q", "other.mp3"]
    stdinChunks := [[]]
    flushCount := 1
    pollResult := none
    waitResult := 0 }

/-- Trace B after `play "other.mp3"`. -/
def tB1 : SysState :=
  { mp := { _audioengine := "mpg123", _p := some prB, _is_paused := false
            _process_running := false, _return_code := none }
    monPC := .created, ctl := .ready }

/-- The pipe of the trace-B child after the quit byte was written and flushed. -/
def prBq : Proc := (prB.writeStdin [quitByte]).flushStdin

/-- Trace B after `quit_playing` wrote the quit byte: the controller is now
inside the busy-wait loop, the monitor still has not run. -/
def tB2 : SysState :=
  { tB1 with mp := { tB1.mp with _p := some prBq }, ctl := .quitWaiting }

/-- Trace B after the busy-wait loop exits: `_process_running` is still
false from `__init__` because the monitor never ran, so `quit_playing`
returns at once even though no termination was recorded. -/
def tB3 : SysState := { tB2 with ctl := .ready }

theorem reach_tB1 : Reachable tB1 :=
  Reachable.step Reachable.init (Step.playOk initSys "other.mp3" none 0 rfl (Or.inl rfl))

theorem reach_tB2 : Reachable tB2 :=
  Reachable.step reach_tB1 (Step.quitSend tB1 tB2.mp rfl rfl)

theorem reach_tB3 : Reachable tB3 :=
  Reachable.step reach_tB2 (Step.quitReturn tB2 rfl rfl)

/-- Shared helper: whenever a step flips `_process_running` from true to
false, the exit code is already recorded in the pre-state and is unchanged
by the step.  (The only such step is the final monitor assignment.) -/
theorem running_flip_recorded {s s' : SysState} (hR : Reachable s) (hs : Step s s')
    (h1 : s.mp._process_running = true) (h2 : s'.mp._process_running = false) :
    s.mp._return_code ≠ none ∧ s'.mp._return_code = s.mp._return_code := by
  obtain ⟨i1, i2, i3, i4, i5, i6, i7⟩ := reachable_sysInv hR
  cases hs with
  | playOk path pollr waitr hc hm =>
      have := i3 (by rcases hm with h | h <;> simp [h])
      rw [this] at h1
      exact absurd h1 (by simp)
  | playFail path oserr hc hm =>
      have := i3 (by rcases hm with h | h <;> simp [h])
      rw [this] at h1
      exact absurd h1 (by simp)
  | pauseOk st' hc h =>
      obtain ⟨_, hr', _, _, _⟩ := pause_ok_fields h
      rw [show ({ s with mp := st' } : SysState).mp = st' from rfl, hr', h1] at h2
      exact absurd h2 (by simp)
  | resumeOk st' hc h =>
      obtain ⟨_, hr', _, _, _⟩ := resume_ok_fields h
      rw [show ({ s with mp := st' } : SysState).mp = st' from rfl, hr', h1] at h2
      exact absurd h2 (by simp)
  | quitSend st' hc h =>
      obtain ⟨hr', _, _, _, _⟩ := quit_send_ok_fields h
      rw [show ({ s with mp := st', ctl := .quitWaiting } : SysState).mp = st' from rfl] at h2
      rw [hr', h1] at h2
      exact absurd h2 (by simp)
  | quitReturn hc hr =>
      rw [show ({ s with ctl := .ready } : SysState).mp = s.mp from rfl, h1] at h2
      exact absurd h2 (by simp)
  | monMark hm =>
      exact absurd (show (true : Bool) = false from h2) (by simp)
  | monPoll pr hm hp =>
      have h2' : s.mp._process_running = false := h2
      rw [h1] at h2'
      exact absurd h2' (by simp)
  | monWaitStep pr hm hp =>
      have h2' : s.mp._process_running = false := h2
      rw [h1] at h2'
      exact absurd h2' (by simp)
  | monFinish hm =>
      exact ⟨i4 hm, rfl⟩

/-- Claim C1 is false as stated: `tA3` is a reachable state of a session in
which the running flag is true while the recorded exit code is already set
(the monitor records the polled exit code at line 115, before it flips
`_process_running` at line 125). -/
theorem claim1_counterexample :
    Reachable tA3 ∧ tA3.mp._process_running = true ∧ tA3.mp._return_code = some 0 :=
  ⟨reach_tA3, rfl, rfl⟩

/-- Claim C1 (amended): the exit code is recorded before the running flag
transitions to false, not only at that moment — whenever a step flips
`_process_running` from true to false, the recorded exit code is already
set in the pre-state and the step leaves it unchanged (so there may be a
window where the flag is still true and the exit code is already set). -/
theorem claim1 {s s' : SysState} (hR : Reachable s) (hs : Step s s')
    (h1 : s.mp._process_running = true) (h2 : s'.mp._process_running = false) :
    s.mp._return_code ≠ none ∧ s'.mp._return_code = s.mp._return_code :=
  running_flip_recorded hR hs h1 h2

/-- Witness for the amended theorem of C1 at the final monitor step of
trace A. -/
theorem claim1_witness :
    tA4.mp._return_code ≠ none ∧ tA5.mp._return_code = tA4.mp._return_code :=
  claim1 reach_tA4 (Step.monFinish tA4 rfl) rfl rfl

/-- Claim C2: in every reachable state, `pause` and `resume` raise exactly
when `_process_running` is false, the raised exception is `NoPlaybackError`
and the raise leaves the player unchanged; while `_process_running` is true
neither method raises. -/
theorem claim2 {s : SysState} (hR : Reachable s) :
    ((s.mp.pause).1 ≠ none ↔ s.mp._process_running = false) ∧
    ((s.mp.resume).1 ≠ none ↔ s.mp._process_running = false) ∧
    (s.mp._process_running = false →
      s.mp.pause =
        (some (.noPlayback "Cannot pause playback because nothing is playing."), s.mp) ∧
      s.mp.resume =
        (some (.noPlayback "Cannot resume playback because nothing is playing."), s.mp)) := by
  obtain ⟨i1, i2, i3, i4, i5, i6, i7⟩ := reachable_sysInv hR
  cases hb : s.mp._process_running with
  | false =>
      refine ⟨?_, ?_, fun _ => ?_⟩ <;>
        simp [MusicPlayer.pause, MusicPlayer.resume, hb]
  | true =>
      have hmon : ¬(s.monPC = .idle ∨ s.monPC = .created ∨ s.monPC = .done) := by
        intro hx
        rw [i3 hx] at hb
        exact Bool.false_ne_true hb
      have hp : s.mp._p ≠ none := i1 fun hx => hmon (Or.inl hx)
      cases hq : s.mp._p with
      | none => exact absurd hq hp
      | some pr =>
          cases hpa : s.mp._is_paused with
          | false =>
              refine ⟨?_, ?_, fun hx => by simp at hx⟩ <;>
                simp [MusicPlayer.pause, MusicPlayer.resume, hb, hpa, hq]
          | true =>
              refine ⟨?_, ?_, fun hx => by simp at hx⟩ <;>
                simp [MusicPlayer.pause, MusicPlayer.resume, hb, hpa, hq]

/-- Witness for C2 at the reachable state `tA2` (monitor has marked the
session running). -/
theorem claim2_witness :
    ((tA2.mp.pause).1 ≠ none ↔ tA2.mp._process_running = false) ∧
    ((tA2.mp.resume).1 ≠ none ↔ tA2.mp._process_running = false) ∧
    (tA2.mp._process_running = false →
      tA2.mp.pause =
        (some (.noPlayback "Cannot pause playback because nothing is playing."), tA2.mp) ∧
      tA2.mp.resume =
        (some (.noPlayback "Cannot resume playback because nothing is playing."), tA2.mp)) :=
  claim2 reach_tA2

/-- Claim C3: the monitor sets the running flag, performs the non-blocking
poll first and uses its exit code directly if the child already exited,
otherwise records the code returned by the blocking wait; the running flag
is cleared only after the code is recorded, and there is no reachable state
in which the monitor has completed while the exit code is still unset. -/
theorem claim3 :
    (∀ (st : MusicPlayer) (pr : Proc), st._p = some pr →
      st.process_monitor =
        (none, { st with
          _process_running := false
          _return_code := some (match pr.pollResult with
            | some c => c
            | none => pr.waitResult) })) ∧
    (∀ s s' : SysState, Reachable s → Step s s' →
      s.mp._process_running = true → s'.mp._process_running = false →
      s.mp._return_code ≠ none) ∧
    (∀ s : SysState, Reachable s → s.monPC = .done →
      s.mp._process_running = false ∧ s.mp._return_code ≠ none) := by
  refine ⟨?_, ?_, ?_⟩
  · intro st pr hp
    cases hpoll : pr.pollResult <;>
      simp [MusicPlayer.process_monitor, hp, hpoll]
  · intro s s' hR hs h1 h2
    exact (running_flip_recorded hR hs h1 h2).1
  · intro s hR hd
    obtain ⟨i1, i2, i3, i4, i5, i6, i7⟩ := reachable_sysInv hR
    exact ⟨i3 (by simp [hd]), i5 hd⟩

/-- Witness for C3: the atomic monitor run on the player state of trace A,
the recording-before-flip fact at the final monitor step of trace A, and
the completed-session fact at the final state of trace A. -/
theorem claim3_witness :
    tA1.mp.process_monitor =
      (none, { tA1.mp with _process_running := false, _return_code := some 0 }) ∧
    tA4.mp._return_code ≠ none ∧
    (tA5.mp._process_running = false ∧ tA5.mp._return_code ≠ none) :=
  ⟨claim3.1 tA1.mp prA rfl,
    claim3.2.1 tA4 tA5 reach_tA4 (Step.monFinish tA4 rfl) rfl rfl,
    claim3.2.2 tA5 reach_tA5 rfl⟩

/-- Claim C4 is false as stated: in the reachable state `tB2` the
controller is inside the busy-wait loop of `quit_playing` right after
`play`, the monitor thread has not yet run (`monPC = created`), so
`_process_running` is still false and the loop-exit transition to `tB3`
fires — `quit_playing` returns — although no termination was recorded
(`_return_code` is still `none` and the child is still alive). -/
theorem claim4_counterexample :
    Reachable tB2 ∧ tB2.ctl = .quitWaiting ∧ tB2.mp._process_running = false ∧
    Step tB2 tB3 ∧ tB3.ctl = .ready ∧
    tB2.monPC = .created ∧ tB2.mp._return_code = none ∧ tB3.mp._return_code = none :=
  ⟨reach_tB2, rfl, rfl, Step.quitReturn tB2 rfl rfl, rfl, rfl, rfl, rfl⟩

/-- Claim C4 (amended): `quit_playing` writes the single quit byte to the
stdin of the child regardless of the paused belief, and it returns only when the
running flag is observed false; at that point either the monitor has
completed and the exit code is recorded, or — in the startup race — the
monitor has not yet executed its first statement, in which case
`quit_playing` can return before any termination is recorded. -/
theorem claim4 {s s' : SysState} (hR : Reachable s) (hs : Step s s')
    (hc : s.ctl = .quitWaiting) (hc' : s'.ctl = .ready) :
    (∀ (st : MusicPlayer) (pr : Proc), st._p = some pr →
      st.quit_send =
        (none, { st with _p := some ((pr.writeStdin [quitByte]).flushStdin) })) ∧
    (∃ pr, s.mp._p = some pr ∧ [quitByte] ∈ pr.stdinChunks) ∧
    s.mp._process_running = false ∧
    (s.monPC = .created ∨ (s.monPC = .done ∧ s.mp._return_code ≠ none)) ∧
    s' = { s with ctl := .ready } := by
  obtain ⟨i1, i2, i3, i4, i5, i6, i7⟩ := reachable_sysInv hR
  have hsend : ∀ (st : MusicPlayer) (pr : Proc), st._p = some pr →
      st.quit_send =
        (none, { st with _p := some ((pr.writeStdin [quitByte]).flushStdin) }) := by
    intro st pr hp
    simp [MusicPlayer.quit_send, hp]
  cases hs with
  | playOk path pollr waitr hcr hm => rw [hcr] at hc; exact absurd hc (by simp)
  | playFail path oserr hcr hm => rw [hcr] at hc; exact absurd hc (by simp)
  | pauseOk st' hcr h => rw [hcr] at hc; exact absurd hc (by simp)
  | resumeOk st' hcr h => rw [hcr] at hc; exact absurd hc (by simp)
  | quitSend st' hcr h => rw [hcr] at hc; exact absurd hc (by simp)
  | monMark hm => rw [hc] at hc'; exact absurd hc' (by simp)
  | monPoll pr hm hp => rw [hc] at hc'; exact absurd hc' (by simp)
  | monWaitStep pr hm hp => rw [hc] at hc'; exact absurd hc' (by simp)
  | monFinish hm => rw [hc] at hc'; exact absurd hc' (by simp)
  | quitReturn hcr hr =>
      obtain ⟨pr, hp, hmem⟩ := i7 hc
      have hnotidle : s.monPC ≠ .idle := by
        intro hx
        rw [i6 hx] at hp
        simp [MusicPlayer.init] at hp
      have hcases : s.monPC = .idle ∨ s.monPC = .created ∨ s.monPC = .done := by
        by_contra hx
        push_neg at hx
        have : s.mp._process_running = true := by
          cases hmc : s.monPC <;> simp_all
        rw [this] at hr
        exact absurd hr (by simp)
      refine ⟨hsend, ⟨pr, hp, hmem⟩, hr, ?_, rfl⟩
      rcases hcases with hx | hx | hx
      · exact absurd hx hnotidle
      · exact Or.inl hx
      · exact Or.inr ⟨hx, i5 hx⟩

/-- Witness for the amended theorem of C4 at the loop-exit step of trace B
(the
startup-race branch of the disjunction). -/
theorem claim4_witness :
    (∀ (st : MusicPlayer) (pr : Proc), st._p = some pr →
      st.quit_send =
        (none, { st with _p := some ((pr.writeStdin [quitByte]).flushStdin) })) ∧
    (∃ pr, tB2.mp._p = some pr ∧ [quitByte] ∈ pr.stdinChunks) ∧
    tB2.mp._process_running = false ∧
    (tB2.monPC = .created ∨ (tB2.monPC = .done ∧ tB2.mp._return_code ≠ none)) ∧
    tB3 = { tB2 with ctl := .ready } :=
  claim4 reach_tB2 (Step.quitReturn tB2 rfl rfl) rfl rfl

/-- Claim C5: on a running session, a first `pause` from the playing
sub-state raises nothing, appends exactly the one toggle-byte chunk, and
sets the paused belief; a further `pause` without an intervening `resume`
is the identity and writes nothing, and `resume` while already playing is
likewise the identity; symmetrically, `resume` from the paused sub-state
appends exactly one toggle-byte chunk and clears the belief. -/
theorem claim5 {st : MusicPlayer} (pr : Proc)
    (hrun : st._process_running = true) (hp : st._p = some pr) :
    (st._is_paused = false →
      st.pause = (none, { st with
        _p := some ((pr.writeStdin [toggleByte]).flushStdin)
        _is_paused := true }) ∧
      (st.pause).2.pause = (none, (st.pause).2)) ∧
    (st._is_paused = true → st.pause = (none, st)) ∧
    (st._is_paused = false → st.resume = (none, st)) ∧
    (st._is_paused = true →
      st.resume = (none, { st with
        _p := some ((pr.writeStdin [toggleByte]).flushStdin)
        _is_paused := false })) := by
  refine ⟨fun hpa => ⟨?_, ?_⟩, fun hpa => ?_, fun hpa => ?_, fun hpa => ?_⟩ <;>
    simp [MusicPlayer.pause, MusicPlayer.resume, hrun, hp, hpa]

/-- Witness for C5 at the running player state of trace A (playing, not
paused). -/
theorem claim5_witness :
    tA2.mp.pause = (none, { tA2.mp with
      _p := some ((prA.writeStdin [toggleByte]).flushStdin)
      _is_paused := true }) ∧
    (tA2.mp.pause).2.pause = (none, (tA2.mp.pause).2) :=
  (claim5 prA rfl rfl).1 rfl

/-- Claim C6: launching against a missing binary raises
`AudioEngineUnavailableError` carrying the OS error description, starts no
monitor, and leaves the player — in particular `is_playing`, false on a
fresh player — unchanged. -/
theorem claim6 :
    (∀ (st : MusicPlayer) (path oserr : String),
      st.play path (.fileNotFound oserr) =
        (some (.audioEngineUnavailable ("AudioEngineUnavailableError: " ++ oserr)),
          st, false) ∧
      ((st.play path (.fileNotFound oserr)).2.1).is_playing = st.is_playing) ∧
    MusicPlayer.init.is_playing = false :=
  ⟨fun st path oserr => ⟨rfl, rfl⟩, rfl⟩

/-- Claim C7: `_return_code` starts unset; the only steps that change it
are the two recording assignments of the monitor (which store the status
the child reported through `poll()` or `wait()`); no step taken from a
completed-session state changes it (a change requires the monitor of a
new session, started by a subsequent `play`); and a completed session holds a
set exit code. -/
theorem claim7 :
    MusicPlayer.init.return_code = none ∧
    (∀ s s' : SysState, Step s s' →
      s'.mp._return_code ≠ s.mp._return_code →
      ∃ pr, s.mp._p = some pr ∧
        ((s.monPC = .marked ∧ s'.mp._return_code = pr.pollResult) ∨
         (s.monPC = .polled ∧ s.mp._return_code = none ∧
           s'.mp._return_code = some pr.waitResult))) ∧
    (∀ s s' : SysState, Step s s' → s.monPC = .done →
      s'.mp._return_code = s.mp._return_code) ∧
    (∀ s : SysState, Reachable s → s.monPC = .done → s.mp._return_code ≠ none) := by
  refine ⟨rfl, ?_, ?_, ?_⟩
  · intro s s' hs hchange
    cases hs with
    | playOk path pollr waitr hc hm =>
        exact absurd (show s.mp._return_code = s.mp._return_code from rfl)
          (by simpa [MusicPlayer.play] using hchange)
    | playFail path oserr hc hm =>
        exact absurd (show s.mp._return_code = s.mp._return_code from rfl)
          (by simpa [MusicPlayer.play] using hchange)
    | pauseOk st' hc h =>
        obtain ⟨_, _, hrc', _, _⟩ := pause_ok_fields h
        exact absurd hrc' (by simpa using hchange)
    | resumeOk st' hc h =>
        obtain ⟨_, _, hrc', _, _⟩ := resume_ok_fields h
        exact absurd hrc' (by simpa using hchange)
    | quitSend st' hc h =>
        obtain ⟨_, hrc', _, _, _⟩ := quit_send_ok_fields h
        exact absurd hrc' (by simpa using hchange)
    | quitReturn hc hr =>
        exact absurd (show s.mp._return_code = s.mp._return_code from rfl)
          (by simpa using hchange)
    | monMark hm =>
        exact absurd (show s.mp._return_code = s.mp._return_code from rfl)
          (by simpa using hchange)
    | monPoll pr hm hp => exact ⟨pr, hp, Or.inl ⟨hm, rfl⟩⟩
    | monWaitStep pr hm hp =>
        refine ⟨pr, hp, Or.inr ⟨hm, ?_⟩⟩
        cases hrc : s.mp._return_code with
        | none => exact ⟨rfl, by simp [hrc]⟩
        | some c =>
            exfalso
            apply hchange
            simp [hrc]
    | monFinish hm =>
        exact absurd (show s.mp._return_code = s.mp._return_code from rfl)
          (by simpa using hchange)
  · intro s s' hs hd
    cases hs with
    | playOk path pollr waitr hc hm => simp [MusicPlayer.play]
    | playFail path oserr hc hm => simp [MusicPlayer.play]
    | pauseOk st' hc h => exact (pause_ok_fields h).2.2.1
    | resumeOk st' hc h => exact (resume_ok_fields h).2.2.1
    | quitSend st' hc h => exact (quit_send_ok_fields h).2.1
    | quitReturn hc hr => rfl
    | monMark hm => simp [hd] at hm
    | monPoll pr hm hp => simp [hd] at hm
    | monWaitStep pr hm hp => simp [hd] at hm
    | monFinish hm => simp [hd] at hm
  · intro s hR hd
    obtain ⟨i1, i2, i3, i4, i5, i6, i7⟩ := reachable_sysInv hR
    exact i5 hd

/-- Witness for C7: the recording step of trace A changes the code to the
polled status; a `play` step taken from the completed state `tA5` leaves
the recorded code unchanged; and `tA5` holds a set exit code. -/
theorem claim7_witness :
    (∃ pr, tA2.mp._p = some pr ∧
      ((tA2.monPC = .marked ∧ tA3.mp._return_code = pr.pollResult) ∨
       (tA2.monPC = .polled ∧ tA2.mp._return_code = none ∧
         tA3.mp._return_code = some pr.waitResult))) ∧
    ({ mp := (tA5.mp.play "song.mp3" (.ok (some 0) 0)).2.1,
       monPC := .created, ctl := .ready } : SysState).mp._return_code
      = tA5.mp._return_code ∧
    tA5.mp._return_code ≠ none :=
  ⟨claim7.2.1 tA2 tA3 (Step.monPoll tA2 prA rfl rfl) (by simp [tA3, tA2, tA1, prA]),
    claim7.2.2.1 tA5 _ (Step.playOk tA5 "song.mp3" (some 0) 0 rfl (Or.inr rfl)) rfl,
    claim7.2.2.2 tA5 reach_tA5 rfl⟩

/-- Claim C8: a successful `play` raises nothing and spawns the child with
argv exactly `[engine, "-C", "-q", path]` (enable-stdin-commands flag,
quiet flag, then the file path); immediately after the spawn exactly one
zero-length chunk has been written to the stdin of the child and the pipe
flushed once; and the monitor is started as a concurrent task bound to the
new process (the monitor thread is created on the state holding the new
handle). -/
theorem claim8 :
    (∀ (st : MusicPlayer) (path : String) (pollr : Option Int) (waitr : Int),
      (st.play path (.ok pollr waitr)).1 = none ∧
      (st.play path (.ok pollr waitr)).2.2 = true ∧
      ∃ q, (st.play path (.ok pollr waitr)).2.1._p = some q ∧
        q.argv = [st._audioengine, "-C", "-q", path] ∧
        q.stdinChunks = [[]] ∧ q.flushCount = 1) ∧
    (∀ (s : SysState) (path : String) (pollr : Option Int) (waitr : Int),
      s.ctl = .ready → (s.monPC = .idle ∨ s.monPC = .done) →
      Step s { mp := (s.mp.play path (.ok pollr waitr)).2.1,
               monPC := .created, ctl := .ready }) :=
  ⟨fun st path pollr waitr => ⟨rfl, rfl, _, rfl, rfl, rfl, rfl⟩,
    fun s path pollr waitr hc hm => Step.playOk s path pollr waitr hc hm⟩

/-- Witness for the monitor-start conjunct of C8, discharged at the initial
state. -/
theorem claim8_witness :
    Step initSys
      { mp := (initSys.mp.play "song.mp3" (.ok (some 0) 0)).2.1,
        monPC := .created, ctl := .ready } :=
  claim8.2 initSys "song.mp3" (some 0) 0 rfl (Or.inl rfl)

/-- Claim C9: a successful `play` leaves `_is_paused`, `_return_code` (and
the engine name and running flag) at their prior values, modifying only the
process handle; consequently, on a session whose monitor is running while
the stale paused belief is still true, the first `pause` call is a no-op
that writes no byte at all to the stdin of the child. -/
theorem claim9 :
    (∀ (st : MusicPlayer) (path : String) (pollr : Option Int) (waitr : Int),
      (st.play path (.ok pollr waitr)).2.1._is_paused = st._is_paused ∧
      (st.play path (.ok pollr waitr)).2.1._return_code = st._return_code ∧
      (st.play path (.ok pollr waitr)).2.1._process_running = st._process_running ∧
      (st.play path (.ok pollr waitr)).2.1._audioengine = st._audioengine) ∧
    (∀ st : MusicPlayer, st._process_running = true → st._is_paused = true →
      st.pause = (none, st)) := by
  refine ⟨fun st path pollr waitr => ⟨rfl, rfl, rfl, rfl⟩, ?_⟩
  intro st h1 h2
  simp [MusicPlayer.pause, h1, h2]

/-- Witness for the stale-pause conjunct of C9 at a player state whose session
ended paused and was replayed (running again, belief still paused). -/
theorem claim9_witness :
    ({ tA2.mp with _is_paused := true } : MusicPlayer).pause =
      (none, { tA2.mp with _is_paused := true }) :=
  claim9.2 { tA2.mp with _is_paused := true } rfl rfl

/-- Claim C10: `quit_playing` has no no-session guard: on a freshly
constructed player (`_p` still `None`, before any `play`), the write of the
quit byte dereferences `self._p.stdin` and raises `AttributeError` — not
`NoPlaybackError`. -/
theorem claim10 :
    MusicPlayer.init._p = none ∧
    MusicPlayer.init.quit_send =
      (some (.attributeError "NoneType object has no attribute stdin"),
        MusicPlayer.init) :=
  ⟨rfl, rfl⟩
